import Mathlib

/-!
Verification of the DOCX→PDF converter application (`src/app.py`).

The development shallowly embeds the conversion logic of `app.py`:
* `check_libreoffice` — the LibreOffice availability probe (app.py lines 67-81),
* `convert_with_libreoffice` — the LibreOffice-backed converter (lines 83-126),
* `convert_with_python` — the text-only python-docx/reportlab renderer
  (lines 128-182),
* `dispatch` / `main_convert` — the conversion and fallback logic of `main`
  (lines 272-321), including the temporary-file plumbing.

Python exceptions are modelled with `Except PyExc`; the environment
(outcomes of subprocess invocations, availability of optional imports,
success of the PDF build) is passed in explicitly.  The filesystem is
modelled as the list of existing paths; per-call temporary file names are
modelled as fixed distinct path constants.
-/

set_option autoImplicit false

namespace DocxApp

/-- Outcome of one `subprocess.run` invocation, as seen by the caller:
the process completed (with a return code and captured stderr), the
executable was missing (`FileNotFoundError`), the timeout expired
(`subprocess.TimeoutExpired`), or some other exception was raised. -/
inductive RunOutcome where
  | completed (returncode : Int) (stderrTxt : String)
  | fileNotFound
  | timedOut
  | otherError (msg : String)
deriving DecidableEq

/-- A Python exception crossing a function boundary. -/
inductive PyExc where
  | timeoutExpired
  | importErr (msg : String)
  | otherExc (msg : String)
deriving DecidableEq

/-- A record of one spawned subprocess: its argument vector and the
`timeout=` argument given to `subprocess.run`. -/
structure Spawn where
  argv : List String
  timeoutSec : Option Nat
deriving DecidableEq

/-- The filesystem, modelled as the list of paths that currently exist. -/
abbrev FS := List String

def FS.empty : FS := []

/-- Model of `os.path.exists`. -/
def FS.mem : FS → String → Bool
  | [], _ => false
  | q :: rest, p => if q = p then true else FS.mem rest p

/-- Creating a file (`tempfile.NamedTemporaryFile(delete=False)` or a
subprocess writing its output): a no-op when the path already exists. -/
def FS.insert (fs : FS) (p : String) : FS :=
  if FS.mem fs p then fs else p :: fs

/-- Model of `os.unlink` and of the removal half of `os.rename`. -/
def FS.erase : FS → String → FS
  | [], _ => []
  | q :: rest, p => if q = p then FS.erase rest p else q :: FS.erase rest p

/-- The temporary `.docx` path created by `convert_with_libreoffice`
(app.py line 89, `tempfile.NamedTemporaryFile(delete=False, suffix='.docx')`). -/
def tempDocxPath : String := "/tmp/tmpupload.docx"

/-- Model of `temp_docx_path.replace('.docx', '.pdf')` (app.py line 113): the path
where LibreOffice drops the converted PDF. -/
def expectedPdfPath : String := "/tmp/tmpupload.pdf"

/-- The temporary `.pdf` output path created in `main` (app.py line 275). -/
def tempPdfPath : String := "/tmp/tmpoutput.pdf"

/-! ### The availability probe (`check_libreoffice`, app.py lines 67-81) -/

/-- The candidate LibreOffice command names tried by the probe
(app.py line 71). -/
def candidates : List String := ["libreoffice", "soffice", "libreoffice7.6", "libreoffice7.5"]

/-- Bound `timeout=10` passed to each probe `subprocess.run` (app.py line 74). -/
def probeTimeout : Nat := 10

/-- The body of `check_libreoffice` inside the outer `try`: iterate the
candidates; a completed run with return code 0 yields `(True, cmd)`; a
`FileNotFoundError` or `TimeoutExpired` is caught by the inner `except`
and the loop continues; any other exception escapes the loop (to be
caught by the outer `except Exception`). -/
def check_go (env : String → RunOutcome) : List String → Except PyExc (Bool × Option String)
  | [] => .ok (false, none)
  | c :: rest =>
    match env c with
    | .completed rc _ => if rc = 0 then .ok (true, some c) else check_go env rest
    | .fileNotFound => check_go env rest
    | .timedOut => check_go env rest
    | .otherError m => .error (.otherExc m)

/-- The subprocesses spawned by `check_libreoffice`: one `[cmd, '--version']`
run (with `timeout=10`) per candidate actually attempted. -/
def check_spawns (env : String → RunOutcome) : List String → List Spawn
  | [] => []
  | c :: rest =>
    let sp : Spawn := ⟨[c, "--version"], some probeTimeout⟩
    match env c with
    | .completed rc _ => if rc = 0 then [sp] else sp :: check_spawns env rest
    | .fileNotFound => sp :: check_spawns env rest
    | .timedOut => sp :: check_spawns env rest
    | .otherError _ => [sp]

/-- Function `check_libreoffice` (app.py lines 67-81): the outer
`except Exception: return False, None` applied to `check_go`. -/
def check_libreoffice (env : String → RunOutcome) : Bool × Option String :=
  match check_go env candidates with
  | .ok r => r
  | .error _ => (false, none)

/-! ### Messages returned by the converters (verbatim from app.py) -/

def loNotFoundMsg : String :=
  "LibreOffice not found. Please install LibreOffice for perfect conversion."

def loSuccessMsg : String :=
  "✅ Perfect conversion using LibreOffice! All formatting preserved."

def loNoPdfMsg : String := "❌ PDF file was not created by LibreOffice"

def loFailedMsg (e : String) : String := "❌ LibreOffice conversion failed: " ++ e

def loTimeoutMsg : String := "❌ Conversion timeout - file might be too large or complex"

def loErrMsg (m : String) : String := "❌ Conversion error: " ++ m

def pySuccessMsg : String := "✅ Basic conversion completed. Text content preserved."

def noContentMsg : String := "❌ No text content found in the document."

def pyImportMsg (m : String) : String := "❌ Required Python package missing: " ++ m

def pyErrMsg (m : String) : String := "❌ Python conversion error: " ++ m

/-! ### `convert_with_libreoffice` (app.py lines 83-126) -/

/-- Environment of one `convert_with_libreoffice` call: the probe
environment, the outcome of the conversion subprocess (app.py line 106,
`timeout=30`), and whether LibreOffice actually wrote the expected PDF. -/
structure LOEnv where
  probeEnv : String → RunOutcome
  convOutcome : RunOutcome
  pdfCreated : Bool

/-- The body of `convert_with_libreoffice` inside its `try` (app.py
lines 88-121): write the upload to a temporary `.docx`, re-probe for
LibreOffice, run the conversion subprocess, unlink the temporary `.docx`
(only reached when the subprocess returns), and on exit code 0 rename
the produced PDF onto `output_path`. -/
def convert_with_libreoffice_body (env : LOEnv) (outputPath : String) (fs : FS) :
    Except PyExc (Bool × String) × FS :=
  let fs1 := FS.insert fs tempDocxPath
  if (check_libreoffice env.probeEnv).1 = false then
    (.ok (false, loNotFoundMsg), fs1)
  else
    match env.convOutcome with
    | .timedOut => (.error .timeoutExpired, fs1)
    | .fileNotFound => (.error (.otherExc "[Errno 2] No such file or directory"), fs1)
    | .otherError m => (.error (.otherExc m), fs1)
    | .completed rc stderrTxt =>
      let fs2 := if env.pdfCreated then FS.insert fs1 expectedPdfPath else fs1
      let fs3 := FS.erase fs2 tempDocxPath
      if rc = 0 then
        if FS.mem fs3 expectedPdfPath then
          (.ok (true, loSuccessMsg), FS.insert (FS.erase fs3 expectedPdfPath) outputPath)
        else
          (.ok (false, loNoPdfMsg), fs3)
      else
        (.ok (false, loFailedMsg (if stderrTxt ≠ "" then stderrTxt else "Unknown error occurred")), fs3)

/-- Function `convert_with_libreoffice` (app.py lines 83-126): the body wrapped in
`except subprocess.TimeoutExpired` and `except Exception`. -/
def convert_with_libreoffice (env : LOEnv) (outputPath : String) (fs : FS) :
    (Bool × String) × FS :=
  match convert_with_libreoffice_body env outputPath fs with
  | (.ok r, fs') => (r, fs')
  | (.error .timeoutExpired, fs') => ((false, loTimeoutMsg), fs')
  | (.error (.importErr m), fs') => ((false, loErrMsg m), fs')
  | (.error (.otherExc m), fs') => ((false, loErrMsg m), fs')

/-! ### The parsed document model (python-docx view used by app.py) -/

/-- A run inside a paragraph (exposed by python-docx; `app.py` never
inspects runs, but the document model carries them). -/
structure DocRun where
  bold : Bool
deriving DecidableEq

/-- A paragraph: its text, its style name, and its runs. -/
structure Par where
  text : String
  styleName : String
  runs : List DocRun
deriving DecidableEq

/-- A parsed document: its paragraphs in source order. -/
structure Doc where
  paragraphs : List Par
deriving DecidableEq

/-- Test `charsPre pre s`: `pre` is a prefix of `s` (character lists). -/
def charsPre : List Char → List Char → Bool
  | [], _ => true
  | _ :: _, [] => false
  | a :: as, b :: bs => a == b && charsPre as bs

/-- Test `charsSub n hay`: `n` occurs as a contiguous substring of `hay`. -/
def charsSub (n : List Char) : List Char → Bool
  | [] => n.isEmpty
  | c :: cs => charsPre n (c :: cs) || charsSub n cs

/-- Python `s.startswith(pre)`. -/
def pyStartswith (pre s : String) : Bool := charsPre pre.data s.data

/-- Python `needle in hay` on strings (substring containment). -/
def containsSub (needle hay : String) : Bool := charsSub needle.data hay.data

/-- Python truthiness of `text.strip()`: the text has some
non-whitespace character. -/
def hasContent (s : String) : Bool := s.data.any (fun c => !c.isWhitespace)

/-- The reportlab style sheet faces used by `convert_with_python`. -/
inductive Face where
  | heading1
  | heading2
  | normal
deriving DecidableEq

/-- Style selection of `convert_with_python` (app.py lines 159-165):
a style name starting with `'Heading'` maps to `Heading1` when it
contains `'Heading 1'` as a substring and to `Heading2` otherwise;
anything else maps to `Normal`. -/
def styleFace (name : String) : Face :=
  if pyStartswith "Heading" name then
    if containsSub "Heading 1" name then .heading1 else .heading2
  else .normal

/-- Model of `paragraph.text.replace('\n', '<br/>')` (app.py line 168), on
character lists. -/
def brChars : List Char → List Char
  | [] => []
  | c :: cs =>
    if c = '\n' then '<' :: 'b' :: 'r' :: '/' :: '>' :: brChars cs
    else c :: brChars cs

/-- Model of `paragraph.text.replace('\n', '<br/>')` (app.py line 168). -/
def brText (s : String) : String := String.mk (brChars s.data)

/-- One element of the reportlab `story`: a text `Paragraph` flowable
with its face, or a `Spacer`. -/
inductive Block where
  | paraBlock (text : String) (face : Face)
  | spacer
deriving DecidableEq

/-- The story contribution of one source paragraph (app.py lines
157-170): a whitespace-only paragraph contributes nothing; otherwise a
`Paragraph` flowable followed by a `Spacer(1, 6)`. -/
def renderPar (p : Par) : List Block :=
  if hasContent p.text then
    [Block.paraBlock (brText p.text) (styleFace p.styleName), Block.spacer]
  else []

/-- The full `story` list built by the paragraph loop (app.py lines
156-170), in source order. -/
def buildStory : List Par → List Block
  | [] => []
  | p :: ps => renderPar p ++ buildStory ps

/-- Selects the text (`Paragraph`) blocks of a story, dropping spacers. -/
def isTextBlock : Block → Bool
  | .paraBlock _ _ => true
  | .spacer => false

/-! ### `convert_with_python` (app.py lines 128-182) -/

/-- Environment of one `convert_with_python` call: whether the optional
imports (reportlab, python-docx) succeed, and whether `doc_pdf.build`
raises. -/
structure PyEnv where
  importsOk : Bool
  importErrTxt : String
  buildOk : Bool
  buildErrTxt : String
deriving DecidableEq

/-- The body of `convert_with_python` inside its `try` (app.py lines
133-177): import the libraries, build the story from the paragraphs,
and build the PDF when the story is non-empty. -/
def convert_with_python_body (env : PyEnv) (doc : Doc) : Except PyExc (Bool × String) :=
  if env.importsOk = false then .error (.importErr env.importErrTxt)
  else
    let story := buildStory doc.paragraphs
    if story.isEmpty then .ok (false, noContentMsg)
    else if env.buildOk then .ok (true, pySuccessMsg)
    else .error (.otherExc env.buildErrTxt)

/-- Function `convert_with_python` (app.py lines 128-182): the body wrapped in
`except ImportError` and `except Exception`.  It writes only to the
(pre-existing) output path, so it neither creates nor removes files in
the model. -/
def convert_with_python (env : PyEnv) (doc : Doc) (_outputPath : String) : Bool × String :=
  match convert_with_python_body env doc with
  | .ok r => r
  | .error (.importErr m) => (false, pyImportMsg m)
  | .error (.otherExc m) => (false, pyErrMsg m)
  | .error .timeoutExpired => (false, pyErrMsg "timeout expired")

/-! ### The dispatcher in `main` (app.py lines 272-321) -/

/-- The conversion method selected in the UI (app.py lines 261-269). -/
inductive Method where
  | libre
  | python
deriving DecidableEq

/-- The backend selection and fallback of `main` (app.py lines 279-287):
try the selected backend; when the LibreOffice method was selected and
failed, fall back to `convert_with_python`. -/
def dispatch (m : Method) (loEnv : LOEnv) (pyEnv : PyEnv) (doc : Doc)
    (outPath : String) (fs : FS) : (Bool × String) × FS :=
  match m with
  | .libre =>
    let r1 := convert_with_libreoffice loEnv outPath fs
    if r1.1.1 then r1 else (convert_with_python pyEnv doc outPath, r1.2)
  | .python => (convert_with_python pyEnv doc outPath, fs)

/-- The conversion block of `main` (app.py lines 272-321): create the
temporary output `.pdf`, run the dispatch, and on success read the PDF
and unlink the temporary output file (app.py line 316); on failure the
temporary output file is not removed. -/
def main_convert (m : Method) (loEnv : LOEnv) (pyEnv : PyEnv) (doc : Doc)
    (fs : FS) : (Bool × String) × FS :=
  let fs0 := FS.insert fs tempPdfPath
  let r := dispatch m loEnv pyEnv doc tempPdfPath fs0
  if r.1.1 then (r.1, FS.erase r.2 tempPdfPath) else r

/-- The exact condition under which the temporary `.docx` survives a
conversion call: `convert_with_libreoffice` ran (it creates the file
unconditionally) but never reached the `os.unlink` on line 109 — either
the probe found no LibreOffice (the early `return` on line 97) or the
conversion subprocess raised (timeout or other exception) instead of
completing. -/
def docxLeak (m : Method) (loEnv : LOEnv) : Bool :=
  match m with
  | .python => false
  | .libre =>
    if (check_libreoffice loEnv.probeEnv).1 then
      match loEnv.convOutcome with
      | .completed _ _ => false
      | _ => true
    else true

/-- The exact condition under which the intermediate converted `.pdf`
(the file LibreOffice writes next to the temporary `.docx`) survives a
conversion call: the conversion subprocess completed with a non-zero
exit code after having produced the file — only the zero-exit path
renames it away (line 115). -/
def expPdfLeak (m : Method) (loEnv : LOEnv) : Bool :=
  match m with
  | .python => false
  | .libre =>
    if (check_libreoffice loEnv.probeEnv).1 then
      match loEnv.convOutcome with
      | .completed rc _ => if rc = 0 then false else loEnv.pdfCreated
      | _ => false
    else false

/-- Helper for `download_filename = Path(uploaded_file.name).stem + ".pdf"`
(app.py line 301).  `pathStem` below embeds `pathlib.PurePath.stem`. -/
def stemSearch : List Char → Nat → Option (List Char)
  | [], _ => none
  | c :: rest, consumed =>
    if c = '.' then
      if consumed ≠ 0 ∧ rest ≠ [] then some rest else none
    else stemSearch rest (consumed + 1)

/-- Model of `pathlib.PurePath.stem`: the name without its last suffix; the last
`'.'` counts as a suffix separator only when it is neither the first nor
the last character of the name. -/
def pathStem (name : String) : String :=
  match stemSearch name.data.reverse 0 with
  | some r => String.mk r.reverse
  | none => name

/-- The download filename offered to the user (app.py line 301). -/
def downloadFilename (name : String) : String := pathStem name ++ ".pdf"

/-! ### Concrete environments and documents used in witnesses -/

/-- Environment where the first probe candidate answers with exit code 0,
the conversion subprocess exits 0, and the PDF is produced. -/
def loEnvOk : LOEnv := ⟨fun _ => .completed 0 "", .completed 0 "", true⟩

/-- Environment where no LibreOffice executable exists. -/
def loEnvNoExe : LOEnv := ⟨fun _ => .fileNotFound, .completed 0 "", true⟩

/-- Environment where the probe succeeds but the conversion subprocess
times out. -/
def loEnvTimeout : LOEnv := ⟨fun _ => .completed 0 "", .timedOut, false⟩

/-- Python-renderer environment with working imports and build. -/
def pyEnvOk : PyEnv := ⟨true, "", true, ""⟩

/-- A one-paragraph document with visible text. -/
def docHello : Doc := ⟨[⟨"Hello World", "Normal", []⟩]⟩

/-- A one-paragraph document whose only paragraph is whitespace. -/
def docBlank : Doc := ⟨[⟨"   ", "Normal", []⟩]⟩

/-! ### Helper lemmas -/

theorem string_data_app (s t : String) : (s ++ t).data = s.data ++ t.data := by
  cases s; cases t; rfl

theorem string_ne_empty_of_data (s : String) (h : s.data ≠ []) : s ≠ "" := by
  intro hc; exact h (by rw [hc])

theorem append_ne_empty_left (s t : String) (h : s.data ≠ []) : s ++ t ≠ "" := by
  intro hc
  have hd : (s ++ t).data = [] := by rw [hc]
  rw [string_data_app] at hd
  exact h (List.append_eq_nil.mp hd).1

theorem buildStory_eq_nil (ps : List Par) :
    buildStory ps = [] ↔ ∀ p ∈ ps, hasContent p.text = false := by
  induction ps with
  | nil => simp [buildStory]
  | cons p ps ih =>
    by_cases h : hasContent p.text = true
    · simp [buildStory, renderPar, h]
    · simp only [Bool.not_eq_true] at h
      simp [buildStory, renderPar, h, ih]

theorem check_go_spec (env : String → RunOutcome) (cs : List String) (b : Bool)
    (o : Option String) (h : check_go env cs = .ok (b, o)) :
    (b = true → ∃ c, o = some c ∧ c ∈ cs ∧ ∃ st, env c = RunOutcome.completed 0 st) ∧
    (b = false → o = none) := by
  induction cs with
  | nil =>
    simp [check_go] at h
    obtain ⟨hb, ho⟩ := h
    subst hb; subst ho
    exact ⟨by simp, fun _ => rfl⟩
  | cons c rest ih =>
    cases hc : env c with
    | completed rc st =>
      by_cases hrc : rc = 0
      · subst hrc
        simp [check_go, hc] at h
        obtain ⟨hb, ho⟩ := h
        subst hb; subst ho
        exact ⟨fun _ => ⟨c, rfl, by simp, st, hc⟩, by simp⟩
      · simp only [check_go, hc, if_neg hrc] at h
        obtain ⟨h1, h2⟩ := ih h
        refine ⟨fun hb => ?_, h2⟩
        obtain ⟨d, hd1, hd2, hd3⟩ := h1 hb
        exact ⟨d, hd1, by simp [hd2], hd3⟩
    | fileNotFound =>
      simp only [check_go, hc] at h
      obtain ⟨h1, h2⟩ := ih h
      refine ⟨fun hb => ?_, h2⟩
      obtain ⟨d, hd1, hd2, hd3⟩ := h1 hb
      exact ⟨d, hd1, by simp [hd2], hd3⟩
    | timedOut =>
      simp only [check_go, hc] at h
      obtain ⟨h1, h2⟩ := ih h
      refine ⟨fun hb => ?_, h2⟩
      obtain ⟨d, hd1, hd2, hd3⟩ := h1 hb
      exact ⟨d, hd1, by simp [hd2], hd3⟩
    | otherError m =>
      simp only [check_go, hc] at h
      simp at h

theorem check_go_no_zero (env : String → RunOutcome) (cs : List String)
    (h : ∀ c ∈ cs, ∀ rc st, env c = RunOutcome.completed rc st → rc ≠ 0) :
    check_go env cs = .ok (false, none) ∨ ∃ m, check_go env cs = .error (.otherExc m) := by
  induction cs with
  | nil => exact Or.inl rfl
  | cons c rest ih =>
    have hrest : ∀ d ∈ rest, ∀ rc st, env d = RunOutcome.completed rc st → rc ≠ 0 :=
      fun d hd => h d (by simp [hd])
    cases hc : env c with
    | completed rc st =>
      have hrc : rc ≠ 0 := h c (by simp) rc st hc
      simpa [check_go, hc, hrc] using ih hrest
    | fileNotFound => simpa [check_go, hc] using ih hrest
    | timedOut => simpa [check_go, hc] using ih hrest
    | otherError m => exact Or.inr ⟨m, by simp [check_go, hc]⟩

theorem check_spawns_timeout (env : String → RunOutcome) (cs : List String) :
    ∀ sp ∈ check_spawns env cs, sp.timeoutSec = some probeTimeout := by
  induction cs with
  | nil => simp [check_spawns]
  | cons c rest ih =>
    intro sp hsp
    cases hc : env c with
    | completed rc st =>
      by_cases hrc : rc = 0
      · subst hrc
        simp [check_spawns, hc] at hsp
        subst hsp; rfl
      · simp only [check_spawns, hc, if_neg hrc] at hsp
        rcases List.mem_cons.mp hsp with h1 | h2
        · subst h1; rfl
        · exact ih sp h2
    | fileNotFound =>
      simp only [check_spawns, hc] at hsp
      rcases List.mem_cons.mp hsp with h1 | h2
      · subst h1; rfl
      · exact ih sp h2
    | timedOut =>
      simp only [check_spawns, hc] at hsp
      rcases List.mem_cons.mp hsp with h1 | h2
      · subst h1; rfl
      · exact ih sp h2
    | otherError m =>
      simp only [check_spawns, hc] at hsp
      simp at hsp; subst hsp; rfl

/-! ### Claims -/

/-- Claim C5 counterexample. The claim says any style name beginning with
`"Heading"` other than exactly `"Heading 1"` renders with the Heading2
face.  The style name `"Heading 10"` begins with `"Heading"`, differs
from `"Heading 1"`, yet renders with the Heading1 face, because the code
tests `'Heading 1' in paragraph.style.name` by substring containment. -/
theorem heading_face_counterexample :
    pyStartswith "Heading" "Heading 10" = true ∧
    "Heading 10" ≠ "Heading 1" ∧
    styleFace "Heading 10" = Face.heading1 ∧
    Face.heading1 ≠ Face.heading2 := by
  refine ⟨by decide, by decide, by decide, by decide⟩

/-- Claim C5 (amended). Face selection of the text-only renderer: style
name exactly `"Heading 1"` gives the Heading1 face; `"Normal"` (with or
without bold runs, which the code ignores) gives the Normal face; a
style name beginning with `"Heading"` gives the Heading1 face when it
contains `"Heading 1"` as a substring and the Heading2 face otherwise;
a whitespace-only paragraph contributes zero story blocks. -/
theorem heading_face_amended (p : Par) :
    (p.styleName = "Heading 1" → styleFace p.styleName = Face.heading1) ∧
    (p.styleName = "Normal" → (∀ r ∈ p.runs, r.bold = false) →
      styleFace p.styleName = Face.normal) ∧
    (pyStartswith "Heading" p.styleName = true →
      containsSub "Heading 1" p.styleName = true → styleFace p.styleName = Face.heading1) ∧
    (pyStartswith "Heading" p.styleName = true →
      containsSub "Heading 1" p.styleName = false → styleFace p.styleName = Face.heading2) ∧
    (hasContent p.text = false → renderPar p = []) := by
  refine ⟨fun h => ?_, fun h _ => ?_, fun h1 h2 => ?_, fun h1 h2 => ?_, fun h => ?_⟩
  · rw [h]; decide
  · rw [h]; decide
  · simp [styleFace, h1, h2]
  · simp [styleFace, h1, h2]
  · simp [renderPar, h]

/-- Claim C5 witness. The amended face selection evaluated at concrete
paragraphs. -/
theorem heading_face_amended_witness :
    styleFace (Par.mk "Title" "Heading 1" []).styleName = Face.heading1 ∧
    styleFace (Par.mk "Body" "Normal" []).styleName = Face.normal ∧
    styleFace (Par.mk "Sub" "Heading 3" []).styleName = Face.heading2 ∧
    renderPar (Par.mk "   " "Normal" []) = [] :=
  ⟨(heading_face_amended ⟨"Title", "Heading 1", []⟩).1 rfl,
   (heading_face_amended ⟨"Body", "Normal", []⟩).2.1 rfl (by simp),
   (heading_face_amended ⟨"Sub", "Heading 3", []⟩).2.2.2.1 (by decide) (by decide),
   (heading_face_amended ⟨"   ", "Normal", []⟩).2.2.2.2 (by decide)⟩

/-- Claim C8. The text blocks of the story built by the text-only renderer
are exactly the non-whitespace source paragraphs, rendered in source
order; whitespace-only paragraphs contribute nothing. -/
theorem story_blocks_source_order (ps : List Par) :
    (buildStory ps).filter isTextBlock =
      (ps.filter fun p => hasContent p.text).map
        (fun p => Block.paraBlock (brText p.text) (styleFace p.styleName)) := by
  induction ps with
  | nil => rfl
  | cons p ps ih =>
    by_cases h : hasContent p.text = true
    · simp [buildStory, renderPar, h, List.filter_append, isTextBlock, ih]
    · simp only [Bool.not_eq_true] at h
      simp [buildStory, renderPar, h, ih]

theorem pathStem_docx (s : String) (h : s ≠ "") : pathStem (s ++ ".docx") = s := by
  have hdata : s.data ≠ [] := by
    intro hc
    apply h
    cases s with
    | mk d => simp at hc; rw [hc]
  have hrev : s.data.reverse ≠ [] := by simpa using hdata
  have h1 : (s ++ ".docx").data = s.data ++ ('.' :: 'd' :: 'o' :: 'c' :: 'x' :: []) :=
    string_data_app s ".docx"
  unfold pathStem
  rw [h1, List.reverse_append]
  simp only [List.reverse_cons, List.reverse_nil, List.nil_append, List.cons_append,
    List.append_nil]
  simp [stemSearch, hrev]

/-- Claim C9. The download filename is the input filename's stem with the
`.docx` extension replaced by `.pdf`. -/
theorem download_filename_stem_pdf (s : String) (h : s ≠ "") :
    downloadFilename (s ++ ".docx") = s ++ ".pdf" := by
  unfold downloadFilename
  rw [pathStem_docx s h]

/-- Claim C9 witness. -/
theorem download_filename_stem_pdf_witness :
    downloadFilename ("report" ++ ".docx") = "report" ++ ".pdf" :=
  download_filename_stem_pdf "report" (by decide)

/-- Claim C10. The probe's pairing invariant: `check_libreoffice` returns
either `(true, some c)` with `c` one of the four fixed candidate command
names whose `--version` run exited 0, or `(false, none)`. -/
theorem probe_pairing_invariant (env : String → RunOutcome) :
    ((check_libreoffice env).1 = true →
      ∃ c, (check_libreoffice env).2 = some c ∧ c ∈ candidates ∧
        ∃ st, env c = RunOutcome.completed 0 st) ∧
    ((check_libreoffice env).1 = false → (check_libreoffice env).2 = none) := by
  unfold check_libreoffice
  cases hg : check_go env candidates with
  | ok r =>
    obtain ⟨b, o⟩ := r
    have hs := check_go_spec env candidates b o hg
    cases b with
    | true => exact ⟨fun _ => by simpa using hs.1 rfl, by simp⟩
    | false => exact ⟨by simp, fun _ => by simpa using hs.2 rfl⟩
  | error e => simp

/-- Claim C10 witness. In an environment where every candidate's version
check exits 0, the probe returns `true` paired with a candidate command
that exited 0. -/
theorem probe_pairing_invariant_witness :
    ∃ c, (check_libreoffice (fun _ => RunOutcome.completed 0 "")).2 = some c ∧
      c ∈ candidates ∧
      ∃ st, (fun _ : String => RunOutcome.completed 0 "") c = RunOutcome.completed 0 st :=
  (probe_pairing_invariant (fun _ => RunOutcome.completed 0 "")).1 rfl

/-- Claim C6. The probe never lets an exception escape: every subprocess it
spawns carries the 10-second timeout; when the loop body raises (any
exception other than the `FileNotFoundError`/`TimeoutExpired` handled
inside the loop) the outer handler returns `(false, none)`; and whenever
no candidate's version check exits 0 — missing executables, timeouts,
permission errors, non-zero exits — the probe returns the unavailable
result `(false, none)` rather than propagating an error. -/
theorem probe_never_raises (env : String → RunOutcome) :
    (∀ sp ∈ check_spawns env candidates, sp.timeoutSec = some probeTimeout) ∧
    (∀ e, check_go env candidates = .error e → check_libreoffice env = (false, none)) ∧
    ((∀ c ∈ candidates, ∀ rc st, env c = RunOutcome.completed rc st → rc ≠ 0) →
      check_libreoffice env = (false, none)) := by
  refine ⟨check_spawns_timeout env candidates, ?_, ?_⟩
  · intro e he
    unfold check_libreoffice
    rw [he]
  · intro h
    rcases check_go_no_zero env candidates h with h1 | ⟨m, h2⟩
    · unfold check_libreoffice; rw [h1]
    · unfold check_libreoffice; rw [h2]

/-- Claim C6 witness. With one candidate raising a permission error and the
rest missing, the probe still returns `(false, none)`. -/
theorem probe_never_raises_witness :
    check_libreoffice
      (fun c => if c = "libreoffice" then RunOutcome.otherError "Permission denied"
                else RunOutcome.fileNotFound) = (false, none) :=
  (probe_never_raises _).2.2
    (fun c _ rc st h => by
      by_cases hc : c = "libreoffice" <;> simp [hc] at h)

/-- Claim C4. When the text-only renderer runs (imports available, PDF
build succeeds): a document with at least one non-whitespace paragraph
converts successfully, and a document with zero non-whitespace
paragraphs fails with the no-content message. -/
theorem python_renderer_content_dichotomy (env : PyEnv) (doc : Doc) (out : String)
    (hi : env.importsOk = true) (hb : env.buildOk = true) :
    ((∃ p ∈ doc.paragraphs, hasContent p.text = true) →
      convert_with_python env doc out = (true, pySuccessMsg)) ∧
    ((∀ p ∈ doc.paragraphs, hasContent p.text = false) →
      convert_with_python env doc out = (false, noContentMsg)) := by
  constructor
  · intro hex
    have hne : buildStory doc.paragraphs ≠ [] := by
      rw [Ne, buildStory_eq_nil]
      push_neg
      obtain ⟨p, hp, hc⟩ := hex
      exact ⟨p, hp, by simp [hc]⟩
    simp [convert_with_python, convert_with_python_body, hi, hb,
      List.isEmpty_iff, hne]
  · intro hall
    have hnil : buildStory doc.paragraphs = [] := (buildStory_eq_nil _).mpr hall
    simp [convert_with_python, convert_with_python_body, hi,
      List.isEmpty_iff, hnil]

/-- Claim C4 witness. The dichotomy evaluated at a one-paragraph document
with text and at a whitespace-only document. -/
theorem python_renderer_content_dichotomy_witness :
    convert_with_python pyEnvOk docHello tempPdfPath = (true, pySuccessMsg) ∧
    convert_with_python pyEnvOk docBlank tempPdfPath = (false, noContentMsg) :=
  ⟨(python_renderer_content_dichotomy pyEnvOk docHello tempPdfPath rfl rfl).1
      ⟨⟨"Hello World", "Normal", []⟩, by simp [docHello], by decide⟩,
   (python_renderer_content_dichotomy pyEnvOk docBlank tempPdfPath rfl rfl).2
      (by intro p hp; simp [docBlank] at hp; subst hp; decide)⟩

/-- Claim C1. With both backends in play (LibreOffice method selected):
the LibreOffice converter runs first; when it succeeds the dispatcher
returns its result, and when it fails the dispatcher returns the result
of the text-only Python renderer. -/
theorem backend_priority_fallback (loEnv : LOEnv) (pyEnv : PyEnv) (doc : Doc)
    (out : String) (fs : FS) :
    ((convert_with_libreoffice loEnv out fs).1.1 = true →
      (dispatch Method.libre loEnv pyEnv doc out fs).1 =
        (convert_with_libreoffice loEnv out fs).1) ∧
    ((convert_with_libreoffice loEnv out fs).1.1 = false →
      (dispatch Method.libre loEnv pyEnv doc out fs).1 =
        convert_with_python pyEnv doc out) := by
  constructor
  · intro h
    simp [dispatch, h]
  · intro h
    simp [dispatch, h]

/-- Claim C1 witness. With no LibreOffice executable installed, the
LibreOffice attempt fails and the dispatcher's result is the Python
renderer's result. -/
theorem backend_priority_fallback_witness :
    (convert_with_libreoffice loEnvNoExe tempPdfPath FS.empty).1.1 = false ∧
    (dispatch Method.libre loEnvNoExe pyEnvOk docHello tempPdfPath FS.empty).1 =
      convert_with_python pyEnvOk docHello tempPdfPath :=
  ⟨rfl,
   (backend_priority_fallback loEnvNoExe pyEnvOk docHello tempPdfPath FS.empty).2 rfl⟩

theorem lo_msg_cases (loEnv : LOEnv) (out : String) (fs : FS) :
    (convert_with_libreoffice loEnv out fs).1 = (false, loNotFoundMsg) ∨
    (convert_with_libreoffice loEnv out fs).1 = (false, loTimeoutMsg) ∨
    (∃ m, (convert_with_libreoffice loEnv out fs).1 = (false, loErrMsg m)) ∨
    (convert_with_libreoffice loEnv out fs).1 = (true, loSuccessMsg) ∨
    (convert_with_libreoffice loEnv out fs).1 = (false, loNoPdfMsg) ∨
    (∃ m, (convert_with_libreoffice loEnv out fs).1 = (false, loFailedMsg m)) := by
  unfold convert_with_libreoffice convert_with_libreoffice_body
  by_cases ha : (check_libreoffice loEnv.probeEnv).1 = false
  · simp [ha]
  · rw [if_neg ha]
    cases hco : loEnv.convOutcome with
    | completed rc st =>
      by_cases hrc : rc = 0
      · subst hrc
        by_cases hm : FS.mem (FS.erase (if loEnv.pdfCreated then
            FS.insert (FS.insert fs tempDocxPath) expectedPdfPath
            else FS.insert fs tempDocxPath) tempDocxPath) expectedPdfPath = true
        · simp [hm]
        · simp only [Bool.not_eq_true] at hm
          simp [hm]
      · simp [hrc]
    | fileNotFound => simp
    | timedOut => simp
    | otherError m => simp

theorem py_msg_cases (pyEnv : PyEnv) (doc : Doc) (out : String) :
    convert_with_python pyEnv doc out = (true, pySuccessMsg) ∨
    convert_with_python pyEnv doc out = (false, noContentMsg) ∨
    (∃ m, convert_with_python pyEnv doc out = (false, pyImportMsg m)) ∨
    (∃ m, convert_with_python pyEnv doc out = (false, pyErrMsg m)) := by
  unfold convert_with_python convert_with_python_body
  by_cases hi : pyEnv.importsOk = false
  · simp [hi]
  · rw [if_neg hi]
    by_cases hs : (buildStory doc.paragraphs).isEmpty = true
    · simp [hs]
    · simp only [Bool.not_eq_true] at hs
      by_cases hb : pyEnv.buildOk = true
      · simp [hs, hb]
      · simp only [Bool.not_eq_true] at hb
        simp [hs, hb]

/-- Claim C2. Each converter returns exactly one outcome: a success flag
paired with a message; on success the message is the backend-identifying
success constant, and in every case — success or failure — the message
is non-empty. -/
theorem conversion_result_message_nonempty (loEnv : LOEnv) (out : String) (fs : FS)
    (pyEnv : PyEnv) (doc : Doc) (out2 : String) :
    ((convert_with_libreoffice loEnv out fs).1.1 = true →
      (convert_with_libreoffice loEnv out fs).1.2 = loSuccessMsg) ∧
    (convert_with_libreoffice loEnv out fs).1.2 ≠ "" ∧
    ((convert_with_python pyEnv doc out2).1 = true →
      (convert_with_python pyEnv doc out2).2 = pySuccessMsg) ∧
    (convert_with_python pyEnv doc out2).2 ≠ "" := by
  have hlo := lo_msg_cases loEnv out fs
  have hpy := py_msg_cases pyEnv doc out2
  refine ⟨?_, ?_, ?_, ?_⟩
  · intro h
    rcases hlo with h1 | h1 | ⟨m, h1⟩ | h1 | h1 | ⟨m, h1⟩ <;> rw [h1] <;>
      rw [h1] at h <;> simp_all
  · rcases hlo with h1 | h1 | ⟨m, h1⟩ | h1 | h1 | ⟨m, h1⟩ <;> rw [h1]
    · decide
    · decide
    · exact append_ne_empty_left _ m (by decide)
    · decide
    · decide
    · exact append_ne_empty_left _ m (by decide)
  · intro h
    rcases hpy with h1 | h1 | ⟨m, h1⟩ | ⟨m, h1⟩ <;> rw [h1] <;>
      rw [h1] at h <;> simp_all
  · rcases hpy with h1 | h1 | ⟨m, h1⟩ | ⟨m, h1⟩ <;> rw [h1]
    · decide
    · decide
    · exact append_ne_empty_left _ m (by decide)
    · exact append_ne_empty_left _ m (by decide)

/-- Claim C2 witness. Success messages at concrete successful runs. -/
theorem conversion_result_message_nonempty_witness :
    (convert_with_libreoffice loEnvOk tempPdfPath FS.empty).1.2 = loSuccessMsg ∧
    (convert_with_python pyEnvOk docHello tempPdfPath).2 = pySuccessMsg :=
  ⟨(conversion_result_message_nonempty loEnvOk tempPdfPath FS.empty pyEnvOk docHello
      tempPdfPath).1 rfl,
   (conversion_result_message_nonempty loEnvOk tempPdfPath FS.empty pyEnvOk docHello
      tempPdfPath).2.2.1 rfl⟩

/-- Claim C7. A timeout of the LibreOffice conversion subprocess raises
`subprocess.TimeoutExpired` inside the body, which the handler converts
into a failure result (not an exception); the dispatcher then falls back
to the Python renderer. -/
theorem timeout_is_failure_fallback (loEnv : LOEnv) (pyEnv : PyEnv) (doc : Doc)
    (out : String) (fs : FS)
    (ht : loEnv.convOutcome = RunOutcome.timedOut)
    (ha : (check_libreoffice loEnv.probeEnv).1 = true) :
    (convert_with_libreoffice_body loEnv out fs).1 = Except.error PyExc.timeoutExpired ∧
    (convert_with_libreoffice loEnv out fs).1 = (false, loTimeoutMsg) ∧
    (dispatch Method.libre loEnv pyEnv doc out fs).1 = convert_with_python pyEnv doc out := by
  have hb : convert_with_libreoffice_body loEnv out fs =
      (Except.error PyExc.timeoutExpired, FS.insert fs tempDocxPath) := by
    unfold convert_with_libreoffice_body
    rw [ha, ht]
    simp
  have hw : convert_with_libreoffice loEnv out fs =
      ((false, loTimeoutMsg), FS.insert fs tempDocxPath) := by
    unfold convert_with_libreoffice
    rw [hb]
  refine ⟨by rw [hb], by rw [hw], ?_⟩
  simp only [dispatch]
  rw [hw]
  simp

/-- Claim C7 witness. -/
theorem timeout_is_failure_fallback_witness :
    (convert_with_libreoffice_body loEnvTimeout tempPdfPath FS.empty).1 =
      Except.error PyExc.timeoutExpired ∧
    (convert_with_libreoffice loEnvTimeout tempPdfPath FS.empty).1 = (false, loTimeoutMsg) ∧
    (dispatch Method.libre loEnvTimeout pyEnvOk docHello tempPdfPath FS.empty).1 =
      convert_with_python pyEnvOk docHello tempPdfPath :=
  timeout_is_failure_fallback loEnvTimeout pyEnvOk docHello tempPdfPath FS.empty rfl rfl

theorem mem_insert (fs : FS) (p q : String) :
    FS.mem (FS.insert fs p) q = if q = p then true else FS.mem fs q := by
  unfold FS.insert
  by_cases hq : q = p
  · subst hq
    by_cases hm : FS.mem fs q = true
    · simp [hm]
    · simp only [Bool.not_eq_true] at hm
      simp [hm, FS.mem]
  · have hpq : ¬ p = q := fun h => hq h.symm
    by_cases hm : FS.mem fs p = true
    · simp [hm, hq]
    · simp only [Bool.not_eq_true] at hm
      simp [hm, FS.mem, hpq, hq]

theorem mem_erase (fs : FS) (p q : String) :
    FS.mem (FS.erase fs p) q = if q = p then false else FS.mem fs q := by
  induction fs with
  | nil => simp [FS.erase, FS.mem]
  | cons r rest ih =>
    by_cases hr : r = p
    · subst hr
      have he : FS.erase (r :: rest) r = FS.erase rest r := by simp [FS.erase]
      rw [he, ih]
      by_cases hq : q = r
      · simp [hq]
      · have hrq : ¬ r = q := fun h => hq h.symm
        simp [hq, FS.mem, hrq]
    · simp only [FS.erase, if_neg hr, FS.mem]
      rw [ih]
      by_cases hrq : r = q
      · subst hrq
        have hq : ¬ r = p := hr
        simp [hq]
      · simp [hrq]

/-- Claim C3 counterexample. When the LibreOffice conversion subprocess
times out and the dispatcher falls back to the Python renderer (which
succeeds), the conversion call as a whole finishes — yet the temporary
`.docx` file created by `convert_with_libreoffice` is still on disk,
because the timeout jumps over the `os.unlink(temp_docx_path)` call. -/
theorem temp_cleanup_counterexample :
    (main_convert Method.libre loEnvTimeout pyEnvOk docHello FS.empty).1.1 = true ∧
    FS.mem (main_convert Method.libre loEnvTimeout pyEnvOk docHello FS.empty).2
      tempDocxPath = true :=
  ⟨rfl, rfl⟩

/-- Claim C3 (amended). Exact cleanup behaviour of a conversion call
(started with none of the call's temporary paths present): the temporary
input `.docx` remains on disk exactly when `convert_with_libreoffice`
ran and either LibreOffice was unavailable or its conversion subprocess
raised (timeout or other exception) instead of completing — those paths
skip the `os.unlink`; the intermediate converted `.pdf` remains exactly
when the conversion subprocess completed with a non-zero exit code after
having produced the file; and the temporary output `.pdf` created in
`main` remains exactly when the overall conversion failed, since `main`
unlinks it only on success.  In particular a fully successful
LibreOffice conversion and a successful Python-method conversion leave
no temporary file behind. -/
theorem temp_cleanup_exact (m : Method) (loEnv : LOEnv) (pyEnv : PyEnv) (doc : Doc)
    (fs : FS)
    (h1 : FS.mem fs tempDocxPath = false)
    (_h2 : FS.mem fs tempPdfPath = false)
    (h3 : FS.mem fs expectedPdfPath = false) :
    FS.mem (main_convert m loEnv pyEnv doc fs).2 tempDocxPath = docxLeak m loEnv ∧
    FS.mem (main_convert m loEnv pyEnv doc fs).2 expectedPdfPath = expPdfLeak m loEnv ∧
    FS.mem (main_convert m loEnv pyEnv doc fs).2 tempPdfPath =
      !(main_convert m loEnv pyEnv doc fs).1.1 := by
  have n1 : ¬ (tempDocxPath = tempPdfPath) := by decide
  have n1s : ¬ (tempPdfPath = tempDocxPath) := by decide
  have n2 : ¬ (tempDocxPath = expectedPdfPath) := by decide
  have n2s : ¬ (expectedPdfPath = tempDocxPath) := by decide
  have n3 : ¬ (tempPdfPath = expectedPdfPath) := by decide
  have n3s : ¬ (expectedPdfPath = tempPdfPath) := by decide
  rcases hpy : convert_with_python pyEnv doc tempPdfPath with ⟨pb, pm⟩
  cases m with
  | python =>
    cases pb with
    | true =>
      simp [main_convert, dispatch, hpy, docxLeak, expPdfLeak,
        mem_insert, mem_erase, h1, h3, n1, n1s, n2, n2s, n3, n3s]
    | false =>
      simp [main_convert, dispatch, hpy, docxLeak, expPdfLeak,
        mem_insert, mem_erase, h1, h3, n1, n1s, n2, n2s, n3, n3s]
  | libre =>
    cases hpr : (check_libreoffice loEnv.probeEnv).1 with
    | false =>
      cases pb with
      | true =>
        simp [main_convert, dispatch, convert_with_libreoffice,
          convert_with_libreoffice_body, hpr, hpy, docxLeak, expPdfLeak,
          mem_insert, mem_erase, h1, h3, n1, n1s, n2, n2s, n3, n3s]
      | false =>
        simp [main_convert, dispatch, convert_with_libreoffice,
          convert_with_libreoffice_body, hpr, hpy, docxLeak, expPdfLeak,
          mem_insert, mem_erase, h1, h3, n1, n1s, n2, n2s, n3, n3s]
    | true =>
      cases hco : loEnv.convOutcome with
      | timedOut =>
        cases pb with
        | true =>
          simp [main_convert, dispatch, convert_with_libreoffice,
            convert_with_libreoffice_body, hpr, hco, hpy, docxLeak, expPdfLeak,
            mem_insert, mem_erase, h1, h3, n1, n1s, n2, n2s, n3, n3s]
        | false =>
          simp [main_convert, dispatch, convert_with_libreoffice,
            convert_with_libreoffice_body, hpr, hco, hpy, docxLeak, expPdfLeak,
            mem_insert, mem_erase, h1, h3, n1, n1s, n2, n2s, n3, n3s]
      | fileNotFound =>
        cases pb with
        | true =>
          simp [main_convert, dispatch, convert_with_libreoffice,
            convert_with_libreoffice_body, hpr, hco, hpy, docxLeak, expPdfLeak,
            mem_insert, mem_erase, h1, h3, n1, n1s, n2, n2s, n3, n3s]
        | false =>
          simp [main_convert, dispatch, convert_with_libreoffice,
            convert_with_libreoffice_body, hpr, hco, hpy, docxLeak, expPdfLeak,
            mem_insert, mem_erase, h1, h3, n1, n1s, n2, n2s, n3, n3s]
      | otherError msg =>
        cases pb with
        | true =>
          simp [main_convert, dispatch, convert_with_libreoffice,
            convert_with_libreoffice_body, hpr, hco, hpy, docxLeak, expPdfLeak,
            mem_insert, mem_erase, h1, h3, n1, n1s, n2, n2s, n3, n3s]
        | false =>
          simp [main_convert, dispatch, convert_with_libreoffice,
            convert_with_libreoffice_body, hpr, hco, hpy, docxLeak, expPdfLeak,
            mem_insert, mem_erase, h1, h3, n1, n1s, n2, n2s, n3, n3s]
      | completed rc st =>
        by_cases hrc : rc = 0
        · subst hrc
          cases hpc : loEnv.pdfCreated with
          | true =>
            simp [main_convert, dispatch, convert_with_libreoffice,
              convert_with_libreoffice_body, hpr, hco, hpc, docxLeak, expPdfLeak,
              mem_insert, mem_erase, h1, h3, n1, n1s, n2, n2s, n3, n3s]
          | false =>
            cases pb with
            | true =>
              simp [main_convert, dispatch, convert_with_libreoffice,
                convert_with_libreoffice_body, hpr, hco, hpc, hpy, docxLeak, expPdfLeak,
                mem_insert, mem_erase, h1, h3, n1, n1s, n2, n2s, n3, n3s]
            | false =>
              simp [main_convert, dispatch, convert_with_libreoffice,
                convert_with_libreoffice_body, hpr, hco, hpc, hpy, docxLeak, expPdfLeak,
                mem_insert, mem_erase, h1, h3, n1, n1s, n2, n2s, n3, n3s]
        · cases hpc : loEnv.pdfCreated with
          | true =>
            cases pb with
            | true =>
              simp [main_convert, dispatch, convert_with_libreoffice,
                convert_with_libreoffice_body, hpr, hco, hpc, hrc, hpy, docxLeak,
                expPdfLeak, mem_insert, mem_erase, h1, h3, n1, n1s, n2, n2s, n3, n3s]
            | false =>
              simp [main_convert, dispatch, convert_with_libreoffice,
                convert_with_libreoffice_body, hpr, hco, hpc, hrc, hpy, docxLeak,
                expPdfLeak, mem_insert, mem_erase, h1, h3, n1, n1s, n2, n2s, n3, n3s]
          | false =>
            cases pb with
            | true =>
              simp [main_convert, dispatch, convert_with_libreoffice,
                convert_with_libreoffice_body, hpr, hco, hpc, hrc, hpy, docxLeak,
                expPdfLeak, mem_insert, mem_erase, h1, h3, n1, n1s, n2, n2s, n3, n3s]
            | false =>
              simp [main_convert, dispatch, convert_with_libreoffice,
                convert_with_libreoffice_body, hpr, hco, hpc, hrc, hpy, docxLeak,
                expPdfLeak, mem_insert, mem_erase, h1, h3, n1, n1s, n2, n2s, n3, n3s]

/-- Claim C3 (amended) witness. The characterization evaluated on the
fully successful LibreOffice environment (no leak at all) and on the
timed-out environment (the temporary `.docx` leaks). -/
theorem temp_cleanup_exact_witness :
    (FS.mem (main_convert Method.libre loEnvOk pyEnvOk docHello FS.empty).2 tempDocxPath =
      docxLeak Method.libre loEnvOk ∧
     FS.mem (main_convert Method.libre loEnvOk pyEnvOk docHello FS.empty).2 expectedPdfPath =
      expPdfLeak Method.libre loEnvOk ∧
     FS.mem (main_convert Method.libre loEnvOk pyEnvOk docHello FS.empty).2 tempPdfPath =
      !(main_convert Method.libre loEnvOk pyEnvOk docHello FS.empty).1.1) ∧
    (FS.mem (main_convert Method.libre loEnvTimeout pyEnvOk docHello FS.empty).2 tempDocxPath =
      docxLeak Method.libre loEnvTimeout ∧
     FS.mem (main_convert Method.libre loEnvTimeout pyEnvOk docHello FS.empty).2 expectedPdfPath =
      expPdfLeak Method.libre loEnvTimeout ∧
     FS.mem (main_convert Method.libre loEnvTimeout pyEnvOk docHello FS.empty).2 tempPdfPath =
      !(main_convert Method.libre loEnvTimeout pyEnvOk docHello FS.empty).1.1) :=
  ⟨temp_cleanup_exact Method.libre loEnvOk pyEnvOk docHello FS.empty rfl rfl rfl,
   temp_cleanup_exact Method.libre loEnvTimeout pyEnvOk docHello FS.empty rfl rfl rfl⟩

end DocxApp
